import Mathlib

/-!
Verification of the setup-and-readiness orchestration engine of
skywalking-infra-e2e (files `internal/components/setup/compose.go` and
`internal/components/setup/kind.go`), as a shallow embedding in Lean 4.

Pure helpers of the Go code become Lean functions; external effects
(docker client, kubernetes client, exec sessions, port-forward tunnels)
become explicit oracle arguments, and loops that block on external
results are given the sequence of outcomes (or fuel) as an argument.
Go machine integers stay well inside the modelled ranges, so `Nat`/`Int`
are used directly.
-/

set_option autoImplicit false

/-! ## Go string helpers used by the setup code -/

/-- `strings.Split(s, sep)` for a one-character separator, on the char list.
Go splits at every occurrence of the separator; an empty input yields one
empty field.  `acc` holds the (reversed) chars of the current field. -/
def splitOnCharAux (sep : Char) : List Char → List Char → List String
  | [], acc => [⟨acc.reverse⟩]
  | c :: rest, acc =>
    if c = sep then ⟨acc.reverse⟩ :: splitOnCharAux sep rest []
    else splitOnCharAux sep rest (c :: acc)

/-- `strings.Split(s, ":")` as used by `getExpectPort` and `buildKindPort`. -/
def stringsSplitColon (s : String) : List String :=
  splitOnCharAux ':' s.data []

/-- Decimal value of a digit list (most significant first). -/
def digitsToNat (cs : List Char) : Nat :=
  cs.foldl (fun n c => n * 10 + (c.toNat - '0'.toNat)) 0

/-- Decimal value of an all-digit string. -/
def decimalValue (s : String) : Nat :=
  digitsToNat s.data

/-- `strconv.Atoi`: an optional sign followed by at least one digit;
anything else is a syntax error.  (Range overflow is irrelevant here:
the modelled inputs are port numbers.) -/
def goAtoi (s : String) : Except String Int :=
  match s.data with
  | [] => .error ("strconv.Atoi: parsing " ++ s ++ ": invalid syntax")
  | c :: rest =>
    let neg := c = '-'
    let digits := if c = '-' ∨ c = '+' then rest else c :: rest
    if digits ≠ [] ∧ digits.all Char.isDigit then
      .ok (if neg then -(digitsToNat digits : Int) else (digitsToNat digits : Int))
    else
      .error ("strconv.Atoi: parsing " ++ s ++ ": invalid syntax")

/-! ## compose.go: getExpectPort (port-spec normalization) -/

/-- The dynamic value found under a compose service's `ports` entry:
the Go code switches on `int` and `string` and rejects everything else. -/
inductive PortConfig where
  | int (n : Int)
  | str (s : String)
  | other (descr : String)
  deriving Repr, DecidableEq

/-- `getExpectPort` from compose.go: an `int` is returned as is; a string
is split on `":"` and, when there are at least two fields, the second
field (the container side of `host:container`) is parsed, otherwise the
single field is parsed; any other dynamic type is an error. -/
def getExpectPort : PortConfig → Except String Int
  | .int conf => .ok conf
  | .str conf =>
    let portInfo := stringsSplitColon conf
    if portInfo.length > 1 then goAtoi (portInfo.getD 1 "")
    else goAtoi (portInfo.getD 0 "")
  | .other descr => .error ("unknown port information: " ++ descr)

/-! ## kind.go: resource-name sanitization (exposePerKindService) -/

/-- `strings.ReplaceAll` for a one-character pattern and replacement,
on the char list. -/
def replaceAllChar (s : List Char) (oldC newC : Char) : List Char :=
  s.map fun c => if c = oldC then newC else c

/-- The sanitization applied to `port.Resource` before building env keys:
`strings.ReplaceAll(resourceName, "/", "_")` then
`strings.ReplaceAll(resourceName, "-", "_")`. -/
def sanitizeResourceName (s : String) : String :=
  ⟨replaceAllChar (replaceAllChar s.data '/' '_') '-' '_'⟩

/-! ## compose.go: getInstanceName -/

/-- Whether `regexp.MatchString(".*_[0-9]+", s)` matches: the pattern is
unanchored and `.*` may be empty, so it matches exactly when some `'_'`
in the string is immediately followed by a decimal digit. -/
def hasUnderscoreDigit : List Char → Bool
  | [] => false
  | [_] => false
  | a :: b :: rest => (a = '_' && b.isDigit) || hasUnderscoreDigit (b :: rest)

/-- `getInstanceName` from compose.go: the service name is returned
unchanged when the pattern matches, otherwise `"_1"` is appended.
(The `err != nil` branch of `regexp.MatchString` is dead code: the
pattern is a constant and always compiles.) -/
def getInstanceName (serviceName : String) : String :=
  if hasUnderscoreDigit serviceName.data then serviceName
  else serviceName ++ "_1"

/-- Specification-level reading of the pattern `.*_[0-9]+` (unanchored):
somewhere in the string an underscore is immediately followed by a digit. -/
def ContainsUnderscoreDigit (s : String) : Prop :=
  ∃ l d rest, s.data = l ++ '_' :: d :: rest ∧ d.isDigit = true

/-! ## compose.go: the internal health-probe loop

The loop body runs `Exec(... "/bin/sh", "-c", command)` repeatedly:
a transport error from `Exec` returns an error; exit code 0 breaks out
(ready); exit code 126 returns the fatal error; any other exit code
loops again.  The loop is driven here by the sequence of exec outcomes;
`none` means the given sequence was exhausted with the loop still
running.  The `Nat` in the result counts the exec attempts consumed. -/

def internalCheckLoop : List (Except String Int) → Option (Except String Unit × Nat)
  | [] => none
  | outcome :: rest =>
    match outcome with
    | .error err => some (.error ("host port waiting failed: " ++ err), 1)
    | .ok exitCode =>
      if exitCode = 0 then some (.ok (), 1)
      else if exitCode = 126 then some (.error ("/bin/sh command not executable"), 1)
      else
        match internalCheckLoop rest with
        | none => none
        | some (r, n) => some (r, n + 1)

/-! ## compose.go: the external dial loop

`for { conn, err := dialer.DialContext(context.Background(), "tcp", address);
if err != nil { time.Sleep(2s) } else { conn.Close(); break } }`.
The loop has no error exit and no attempt cap; it is driven here by the
per-attempt dial outcomes, with fuel bounding how far the (otherwise
unbounded) loop is unrolled.  On success it reports the number of
attempts made and the list of sleep durations (in seconds) taken between
failed attempts; `none` means the fuel ran out with the loop still
dialing. -/

def externalDialLoop (dial : Nat → Bool) : Nat → Nat → Option (Nat × List Nat)
  | 0, _ => none
  | fuel + 1, i =>
    if dial i then some (1, [])
    else
      match externalDialLoop dial fuel (i + 1) with
      | some (n, sleeps) => some (n + 1, 2 :: sleeps)
      | none => none

/-- A dial oracle that never succeeds. -/
def alwaysFailingDial : Nat → Bool := fun _ => false

/-- A dial oracle whose first success is attempt index `k`. -/
def succeedsAtDial (k : Nat) : Nat → Bool := fun i => decide (k ≤ i)

/-- Modelled from the spec: the orchestrator that calls `ComposeSetup` is
not under src/ (only the setup component is).  The spec states that the
external readiness gate "is bounded only by the caller's overall setup
timeout, which is enforced by the orchestrator cancelling the whole
operation, not by the probe itself".  The overall timeout is modelled as
the fuel: if the probe has not succeeded when it elapses, the whole
operation is cancelled and the run terminates with a cancellation error. -/
def orchestratorRunSetup (timeoutFuel : Nat) (dial : Nat → Bool) :
    Except String (Nat × List Nat) :=
  match externalDialLoop dial timeoutFuel 0 with
  | some r => .ok r
  | none => .error ("setup cancelled: overall timeout elapsed")

/-! ## compose.go: MappedPort and the per-port loop of ComposeSetup -/

/-- One `nat.PortBinding`: a published (host IP, host port) pair. -/
structure PortBinding where
  hostIP : String
  hostPort : String
  deriving Repr, DecidableEq

/-- A `nat.Port` such as `"9200/tcp"`, split into its `.Port()` and
`.Proto()` parts. -/
structure NatPort where
  portNum : String
  proto : String
  deriving Repr, DecidableEq

/-- The parts of `types.ContainerJSON` that `MappedPort` consults:
`HostConfig.NetworkMode` and `NetworkSettings.Ports`.  The Go port map
is iterated in unspecified order; it is modelled as an association list
in iteration order. -/
structure ContainerInspect where
  networkMode : String
  ports : List (NatPort × List PortBinding)
  deriving Repr, DecidableEq

/-- `nat.NewPort(proto, portStr)`: succeeds when the port string is a
plain decimal number (the only shape produced by the docker API here). -/
def natNewPort (proto portStr : String) : Except String NatPort :=
  match goAtoi portStr with
  | .ok _ => .ok ⟨portStr, proto⟩
  | .error _ => .error ("invalid port: " ++ portStr)

/-- The search loop of `MappedPort` over `NetworkSettings.Ports`:
skip entries whose port number differs, whose protocol differs (when the
requested protocol is non-empty), or which have no bindings; the first
surviving entry yields `nat.NewPort(k.Proto(), p[0].HostPort)`; an
exhausted table is the `"port not found"` error. -/
def mappedPortSearch (ports : List (NatPort × List PortBinding)) (port : NatPort) :
    Except String NatPort :=
  match ports with
  | [] => .error ("port not found")
  | (k, p) :: rest =>
    if k.portNum ≠ port.portNum then mappedPortSearch rest port
    else if port.proto ≠ "" ∧ k.proto ≠ port.proto then mappedPortSearch rest port
    else if p = [] then mappedPortSearch rest port
    else natNewPort k.proto ((p.headD ⟨"", ""⟩).hostPort)

/-- `MappedPort` from compose.go: with network mode `"host"` the
requested port is returned untranslated; otherwise the live port table
is searched. -/
def MappedPort (inspect : ContainerInspect) (port : NatPort) :
    Except String (NatPort × String) :=
  if inspect.networkMode = "host" then .ok (port, inspect.networkMode)
  else
    match mappedPortSearch inspect.ports port with
    | .error e => .error e
    | .ok p => .ok (p, inspect.networkMode)

/-- One entry of `types.Container.Ports` (the fields the loop reads). -/
structure ContainerPort where
  privatePort : Nat
  publicPort : Nat
  deriving Repr, DecidableEq

/-- The inner `for _, containerPort := range containerPorts` loop only
runs its body for the first entry whose `PrivatePort` equals the
expected port (every other entry hits `continue`, and the body ends in
`break`). -/
def findMatchingContainerPort (containerPorts : List ContainerPort) (expectPort : Int) :
    Option ContainerPort :=
  containerPorts.find? fun cp => (cp.privatePort : Int) = expectPort

/-- External outcomes driving the checks of one matched port pair. -/
structure PairChecks where
  dialOutcomes : Nat → Bool
  dialFuel : Nat
  execOutcomes : List (Except String Int)

/-- The body of ComposeSetup's per-expected-port loop (compose.go lines
115-167) for one declared pair, returning the `(key, value)` env
exports it performs.  If no live container port matches the expected
port, the loop body never runs: the pair is skipped with no error.
For a matched pair: `MappedPort` is called but its result and error are
only logged and then discarded; then the external dial loop must
succeed; then the internal check loop decides; success exports
`<service>_<privatePort> = <publicPort>`.  `none` means a check loop
was still running when its outcomes ran out. -/
def composeProcessPortPair (service : String) (inspect : ContainerInspect)
    (containerPorts : List ContainerPort) (expectPort : Int) (checks : PairChecks) :
    Option (Except String (List (String × String))) :=
  match findMatchingContainerPort containerPorts expectPort with
  | none => some (.ok [])
  | some cp =>
    let _mapped := MappedPort inspect ⟨toString expectPort, "tcp"⟩
    match externalDialLoop checks.dialOutcomes checks.dialFuel 0 with
    | none => none
    | some _ =>
      match internalCheckLoop checks.execOutcomes with
      | none => none
      | some (.error e, _) => some (.error e)
      | some (.ok _, _) =>
        some (.ok [(service ++ "_" ++ toString ((cp.privatePort : Int)),
                    toString ((cp.publicPort : Int)))])

/-- A live container exposing only private port 8080 (published at
32000), used to evaluate the pair-processing loop on an absent port. -/
def sampleInspect : ContainerInspect :=
  ⟨"default", [(⟨"8080", "tcp"⟩, [⟨"0.0.0.0", "32000"⟩])]⟩

/-! ## compose.go: network discovery (getDefaultNetwork / getGatewayIP)
and how ComposeSetup consumes it -/

/-- The parts of `types.NetworkResource` that are read: the name and the
`Gateway` field of each `IPAM.Config` entry. -/
structure NetworkResource where
  name : String
  ipamGateways : List String
  deriving Repr, DecidableEq

/-- The docker client calls made by network discovery, as oracles. -/
structure DockerOracle where
  networkList : Except String (List NetworkResource)
  networkCreate : Except String Unit
  networkInspect : String → Except String NetworkResource

/-- `testcontainers.ReaperDefault`. -/
def reaperDefaultNetwork : String := "reaper_default"

/-- `getDefaultNetwork` from compose.go: list networks (fatal on error);
return `"bridge"` if a network with that literal name exists; otherwise
create the fallback reaper network when it does not exist yet (fatal on
error) and return its name. -/
def getDefaultNetwork (o : DockerOracle) : Except String String :=
  match o.networkList with
  | .error e => .error e
  | .ok nets =>
    if nets.any (fun n => n.name = "bridge") then .ok ("bridge")
    else
      let reaperNetworkExists := nets.any (fun n => n.name = reaperDefaultNetwork)
      if !reaperNetworkExists then
        match o.networkCreate with
        | .error e => .error e
        | .ok _ => .ok reaperDefaultNetwork
      else .ok reaperDefaultNetwork

/-- The network name that actually reaches the inspect call inside
`getGatewayIP`: the result of `getDefaultNetwork`, or its zero value
`""` when `getDefaultNetwork` failed (its error is never checked). -/
def defaultNetworkNameOrEmpty (o : DockerOracle) : String :=
  match getDefaultNetwork o with
  | .ok n => n
  | .error _ => ""

/-- `getGatewayIP` from compose.go.  Note the Go slip kept faithfully:
`network, err := getDefaultNetwork(...)` is immediately followed by
`nw, err := GetNetwork(...)`, so `getDefaultNetwork`'s error is
overwritten without being checked and its zero-value result `""` is
passed to the inspect call.  The gateway is the first non-empty
`Gateway` among the IPAM config entries; none is a descriptive error. -/
def getGatewayIP (o : DockerOracle) : Except String String :=
  let network := defaultNetworkNameOrEmpty o
  match o.networkInspect network with
  | .error e => .error e
  | .ok nw =>
    let ip := ((nw.ipamGateways.find? fun g => g ≠ "").getD (""))
    if ip = "" then .error ("Failed to get gateway IP from network settings")
    else .ok ip

/-- The head of `ComposeSetup` up to and including `compose up`
(compose.go lines 48-83).  Kept faithful to the Go control flow:
the results of `getDefaultNetwork` and `getGatewayIP` are bound with
`:=` but their errors are never checked (each later `... , err :=`
overwrites `err`), so discovery failures do not abort; the gateway IP
used afterwards is the zero value `""` on failure.  The first component
is the outcome so far (an error, or the gateway IP the rest of the
setup will use); the second records whether `compose up` was invoked. -/
def composeSetupThroughUp (file : String) (o : DockerOracle)
    (bindPorts : Except String Unit) (upResult : Except String Unit) :
    Except String String × Bool :=
  if file = "" then (.error ("no compose config file was provided"), false)
  else
    let _network := getDefaultNetwork o
    let ip :=
      match getGatewayIP o with
      | .ok v => v
      | .error _ => ""
    match bindPorts with
    | .error e => (.error ("bind wait ports error: " ++ e), false)
    | .ok _ =>
      match upResult with
      | .error e => (.error e, true)
      | .ok _ => (.ok ip, true)

/-- A docker oracle on which every network-discovery call fails. -/
def failingDockerOracle : DockerOracle :=
  { networkList := .error ("network list failed")
    networkCreate := .ok ()
    networkInspect := fun _ => .error ("no such network") }

/-! ## kind.go: getWaitOptions (wait-condition validation) -/

/-- The fields of `config.Wait` that `getWaitOptions` reads. -/
structure Wait where
  resource : String
  labelSelector : String
  nmspace : String
  forCondition : String
  deriving Repr, DecidableEq

/-- The flags `getWaitOptions` assembles before calling
`waitFlags.ToOptions(args)`. -/
structure WaitOptionsModel where
  forCondition : String
  args : List String
  labelSelectorFlag : Option String
  allFlag : Bool
  deriving Repr, DecidableEq

/-- The distinct error exits of `getWaitOptions`, tagged by their
construction site (each carries the literal Go message via
`WaitOptionsError.message`). -/
inductive WaitOptionsError where
  | exclusivity
  | resourceMissing
  | toOptionsFailed (msg : String)
  deriving Repr, DecidableEq

/-- The Go error strings of the tagged errors. -/
def WaitOptionsError.message : WaitOptionsError → String
  | .exclusivity =>
    "when passing resource.group/resource.name in Resource, the labelSelector can not be set at the same time"
  | .resourceMissing => "resource must be provided in wait block"
  | .toOptionsFailed msg => msg

/-- The single external call `getWaitOptions` can make. -/
inductive WaitCall where
  | toOptions
  deriving Repr, DecidableEq

/-- `getWaitOptions` from kind.go, with the trace of external calls it
made.  The exclusivity check (`strings.Contains(wait.Resource, "/") &&
wait.LabelSelector != ""`) runs first, before anything else; then the
flags are assembled purely; only then is `waitFlags.ToOptions(args)`
(the option/client-building call, an oracle here) invoked. -/
def getWaitOptions (w : Wait) (toOptionsOutcome : Except String Unit) :
    Except WaitOptionsError WaitOptionsModel × List WaitCall :=
  if w.resource.data.contains '/' && w.labelSelector ≠ "" then
    (.error .exclusivity, [])
  else if w.resource = "" then (.error .resourceMissing, [])
  else
    let args := [w.resource]
    let labelFlag : Option String :=
      if w.labelSelector ≠ "" then some w.labelSelector else none
    let allFlag :=
      if w.labelSelector ≠ "" then false else !(w.resource.data.contains '/')
    match toOptionsOutcome with
    | .error e => (.error (.toOptionsFailed e), [.toOptions])
    | .ok _ => (.ok ⟨w.forCondition, args, labelFlag, allFlag⟩, [.toOptions])

/-! ## kind.go: KindSetup -/

/-- The fields of `e2eConfig.Setup` that `KindSetup` reads.  Steps are
opaque here (only nil-ness matters to the control flow). -/
structure KindConfig where
  file : String
  steps : Option (List String)
  initSystemEnvironment : String
  importImages : List String
  deriving Repr, DecidableEq

/-- The external operations `KindSetup` can perform, in order. -/
inductive KindOp where
  | exportEnvFile (path : String)
  | createCluster
  | importImage (img : String)
  | connectCluster
  | runSteps
  | exposePorts
  deriving Repr, DecidableEq

/-- Outcomes of the external collaborators `KindSetup` invokes. -/
structure KindOracle where
  createCluster : Except String Unit
  importImage : String → Except String Unit
  connectCluster : Except String Unit
  runSteps : Except String Unit
  exposeServices : Except String Unit

/-- The image-import loop of `KindSetup`: images are loaded one by one,
stopping at the first failure. -/
def importImagesRun (o : KindOracle) : List String → List KindOp × Option String
  | [] => ([], none)
  | img :: rest =>
    match o.importImage img with
    | .error e => ([.importImage img], some e)
    | .ok _ =>
      let (t, r) := importImagesRun o rest
      (.importImage img :: t, r)

/-- `KindSetup` from kind.go, with the trace of external operations.
An empty config file is an error; a nil steps list returns success
immediately (before the env-file export, cluster creation, image
import, client connection, steps, and port exposure); otherwise the
stages run in order, stopping at the first failure. -/
def KindSetup (cfg : KindConfig) (o : KindOracle) :
    Except String Unit × List KindOp :=
  if cfg.file = "" then (.error ("no kind config file was provided"), [])
  else
    match cfg.steps with
    | none => (.ok (), [])
    | some _ =>
      let t0 : List KindOp :=
        if cfg.initSystemEnvironment ≠ "" then
          [.exportEnvFile cfg.initSystemEnvironment]
        else []
      match o.createCluster with
      | .error e => (.error e, t0 ++ [.createCluster])
      | .ok _ =>
        match importImagesRun o cfg.importImages with
        | (t1, some e) => (.error e, t0 ++ [.createCluster] ++ t1)
        | (t1, none) =>
          match o.connectCluster with
          | .error e => (.error e, t0 ++ [.createCluster] ++ t1 ++ [.connectCluster])
          | .ok _ =>
            match o.runSteps with
            | .error e =>
              (.error e, t0 ++ [.createCluster] ++ t1 ++ [.connectCluster, .runSteps])
            | .ok _ =>
              match o.exposeServices with
              | .error e =>
                (.error e,
                 t0 ++ [.createCluster] ++ t1 ++ [.connectCluster, .runSteps, .exposePorts])
              | .ok _ =>
                (.ok (),
                 t0 ++ [.createCluster] ++ t1 ++ [.connectCluster, .runSteps, .exposePorts])

/-! ## kind.go: exposeKindService / KindCleanNotify (drain barrier)

Channels are modelled by token counts: `stopChannel` (capacity 1) by the
number of stop tokens sent, `resourceFinishedChannel` (capacity
`len(exports)`) by the number of completion tokens available to receive.
Each tunnel goroutine sends exactly one completion token when
`ForwardPorts` returns, whether or not it returned an error. -/

/-- The shared lifecycle object (its channels live in the token counts
of the functions below). -/
structure KindPortForwardContext where
  resourceCount : Nat
  deriving Repr, DecidableEq

/-- The observable outcome of one `exposePerKindService` call.
`preSpawnErr` covers every failure before the tunnel goroutine starts
(resource lookup, attachable-pod lookup, `buildKindPort`,
`portforward.New`); the other three spawn the goroutine and then race
`readyChannel` against `forwardErrorChannel`: ready followed by a
successful env export returns nil, ready followed by a failed
`GetPorts`/`exportKindEnv` returns that error, and an error token
first returns the forward error. -/
inductive ExposeResult where
  | preSpawnErr
  | readyOk
  | readyExportErr
  | forwardErr
  deriving Repr, DecidableEq

/-- How many tunnel worker goroutines the call spawned (0 or 1). -/
def exposeSpawnCount : ExposeResult → Nat
  | .preSpawnErr => 0
  | _ => 1

/-- Whether `exposePerKindService` returned an error. -/
def exposeFails : ExposeResult → Bool
  | .readyOk => false
  | _ => true

/-- The `for _, p := range exports` loop of `exposeKindService`:
exposures run in order, the first error aborts (after `cancelFunc()`),
and the count of goroutines spawned so far is threaded through. -/
def exposeKindServiceLoop : List ExposeResult → Nat → Bool × Nat
  | [], spawned => (true, spawned)
  | r :: rest, spawned =>
    if exposeFails r then (false, spawned + exposeSpawnCount r)
    else exposeKindServiceLoop rest (spawned + exposeSpawnCount r)

/-- `exposeKindService`: the context is created up front with
`resourceCount := len(exports)`, but the package-level
`portForwardContext` is only bound after every exposure succeeded; on
any failure the binding stays nil.  Returns the bound context (if any)
and the total number of tunnel goroutines spawned. -/
def exposeKindService (results : List ExposeResult) :
    Option KindPortForwardContext × Nat :=
  let (ok, spawned) := exposeKindServiceLoop results 0
  (if ok then some ⟨results.length⟩ else none, spawned)

/-- The tail of each tunnel goroutine: if `ForwardPorts` returned an
error, one token goes to `forwardErrorChannel`; then, error or not,
exactly one token goes to `resourceFinishedChannel`.  Returns
(error tokens, completion tokens) sent by this worker. -/
def forwardWorkerTokens (forwardPortsErr : Option String) : Nat × Nat :=
  match forwardPortsErr with
  | some _ => (1, 1)
  | none => (0, 1)

/-- Completion tokens produced by a batch of workers with the given
`ForwardPorts` results. -/
def totalFinishedTokens (errs : List (Option String)) : Nat :=
  (errs.map fun e => (forwardWorkerTokens e).2).sum

/-- `KindCleanNotify` from kind.go: with a nil context it returns at
once (no stop signal, no receives); otherwise it sends one stop token
and then performs `resourceCount` blocking receives on
`resourceFinishedChannel`.  Given the number of completion tokens the
workers will produce, it returns `some (stop tokens sent, completion
tokens received)` when the receives can all complete, and `none` when
it would block forever. -/
def kindCleanNotify (ctx : Option KindPortForwardContext) (finishedTokens : Nat) :
    Option (Nat × Nat) :=
  match ctx with
  | none => some (0, 0)
  | some c =>
    if c.resourceCount ≤ finishedTokens then some (1, c.resourceCount)
    else none

/-- A kind oracle whose external collaborators all succeed, for
evaluating `KindSetup` on concrete configurations. -/
def sampleKindOracle : KindOracle :=
  { createCluster := .ok ()
    importImage := fun _ => .ok ()
    connectCluster := .ok ()
    runSteps := .ok ()
    exposeServices := .ok () }

/-- A docker oracle whose network listing succeeds with a bridge network
that has no non-empty gateway in its IPAM config. -/
def sampleNoGatewayOracle : DockerOracle :=
  { networkList := .ok [⟨"bridge", ["", ""]⟩]
    networkCreate := .ok ()
    networkInspect := fun name =>
      if name = "bridge" then .ok ⟨"bridge", ["", ""]⟩
      else .error ("no such network") }

/-- A docker oracle with neither a bridge nor the fallback network, and
a failing network-create call. -/
def createFailOracle : DockerOracle :=
  { networkList := .ok [⟨"mynet", ["172.18.0.1"]⟩]
    networkCreate := .error ("create failed")
    networkInspect := fun _ => .error ("no such network") }

/-! # Theorems -/

/-! ## Helper lemmas -/

theorem stringMk_data (s : String) : (⟨s.data⟩ : String) = s := by
  cases s
  rfl

theorem replaceAllChar_notMem (l : List Char) (oldC newC : Char)
    (h : newC ≠ oldC) : oldC ∉ replaceAllChar l oldC newC := by
  intro hmem
  rcases List.mem_map.mp hmem with ⟨c, _, hc⟩
  by_cases hco : c = oldC
  · rw [if_pos hco] at hc
    exact h hc
  · rw [if_neg hco] at hc
    exact hco hc

theorem replaceAllChar_of_notMem (l : List Char) (oldC newC : Char)
    (h : oldC ∉ l) : replaceAllChar l oldC newC = l := by
  induction l with
  | nil => rfl
  | cons c rest ih =>
    have hc : c ≠ oldC := fun hco => h (hco ▸ List.mem_cons_self c rest)
    have hrest : oldC ∉ rest := fun hm => h (List.mem_cons_of_mem c hm)
    simp only [replaceAllChar, List.map_cons, if_neg hc]
    have := ih hrest
    simp only [replaceAllChar] at this
    rw [this]

theorem hasUnderscoreDigit_iff :
    ∀ l : List Char,
      hasUnderscoreDigit l = true ↔
        ∃ l1 d rest, l = l1 ++ '_' :: d :: rest ∧ d.isDigit = true
  | [] => by
    constructor
    · intro h
      cases h
    · rintro ⟨l1, d, rest, h, _⟩
      exact absurd h (by simp)
  | [a] => by
    constructor
    · intro h
      cases h
    · rintro ⟨l1, d, rest, h, _⟩
      have := congrArg List.length h
      simp at this
      omega
  | a :: b :: rest => by
    have ih := hasUnderscoreDigit_iff (b :: rest)
    constructor
    · intro h
      rcases Bool.or_eq_true_iff.mp h with h1 | h2
      · rcases Bool.and_eq_true_iff.mp h1 with ⟨ha, hb⟩
        exact ⟨[], b, rest, by simp [decide_eq_true_iff.mp ha], hb⟩
      · rcases ih.mp h2 with ⟨l1, d, r, hl, hd⟩
        exact ⟨a :: l1, d, r, by simp [hl], hd⟩
    · rintro ⟨l1, d, r, hl, hd⟩
      cases l1 with
      | nil =>
        simp only [List.nil_append, List.cons.injEq] at hl
        rcases hl with ⟨ha, hb, _⟩
        apply Bool.or_eq_true_iff.mpr
        left
        apply Bool.and_eq_true_iff.mpr
        exact ⟨decide_eq_true_iff.mpr ha, hb ▸ hd⟩
      | cons x xs =>
        simp only [List.cons_append, List.cons.injEq] at hl
        rcases hl with ⟨_, htail⟩
        apply Bool.or_eq_true_iff.mpr
        right
        exact ih.mpr ⟨xs, d, r, htail, hd⟩

theorem hasUnderscoreDigit_append_u1 (l : List Char) :
    hasUnderscoreDigit (l ++ ['_', '1']) = true :=
  (hasUnderscoreDigit_iff (l ++ ['_', '1'])).mpr ⟨l, '1', [], rfl, by decide⟩

theorem splitOnCharAux_of_notMem (sep : Char) :
    ∀ l acc, sep ∉ l → splitOnCharAux sep l acc = [⟨acc.reverse ++ l⟩]
  | [], acc, _ => by simp [splitOnCharAux]
  | c :: rest, acc, h => by
    have hc : ¬c = sep := fun hcs => h (hcs ▸ List.mem_cons_self c rest)
    have hrest : sep ∉ rest := fun hm => h (List.mem_cons_of_mem c hm)
    simp only [splitOnCharAux, if_neg hc]
    rw [splitOnCharAux_of_notMem sep rest (c :: acc) hrest]
    simp

theorem splitOnCharAux_append (sep : Char) :
    ∀ l1 l2 acc, sep ∉ l1 →
      splitOnCharAux sep (l1 ++ sep :: l2) acc =
        ⟨acc.reverse ++ l1⟩ :: splitOnCharAux sep l2 []
  | [], l2, acc, _ => by simp [splitOnCharAux]
  | c :: rest, l2, acc, h => by
    have hc : ¬c = sep := fun hcs => h (hcs ▸ List.mem_cons_self c rest)
    have hrest : sep ∉ rest := fun hm => h (List.mem_cons_of_mem c hm)
    show splitOnCharAux sep (c :: (rest ++ sep :: l2)) acc = _
    simp only [splitOnCharAux, if_neg hc]
    rw [splitOnCharAux_append sep rest l2 (c :: acc) hrest]
    simp

theorem mem_replaceAllChar (l : List Char) (oldC newC c : Char)
    (h : c ∈ replaceAllChar l oldC newC) : c = newC ∨ c ∈ l := by
  rcases List.mem_map.mp h with ⟨d, hd, hdc⟩
  by_cases hdo : d = oldC
  · rw [if_pos hdo] at hdc
    exact Or.inl hdc.symm
  · rw [if_neg hdo] at hdc
    exact Or.inr (hdc ▸ hd)

theorem goAtoi_digits (s : String) (hne : s ≠ "")
    (hd : s.data.all Char.isDigit = true) :
    goAtoi s = .ok ((decimalValue s : Int)) := by
  unfold goAtoi decimalValue
  cases hs : s.data with
  | nil =>
    exact absurd (by cases s; simp_all) hne
  | cons c rest =>
    rw [hs] at hd
    have hall := hd
    simp only [List.all_cons, Bool.and_eq_true] at hall
    have hcd : c.isDigit = true := hall.1
    have hcm : ¬(c = '-' ∨ c = '+') := by
      rintro (h1 | h1) <;> subst h1 <;> cases hcd
    have hneg1 : ¬c = '-' := fun h1 => hcm (Or.inl h1)
    dsimp only
    rw [if_neg hcm]
    rw [if_pos ⟨by simp, hd⟩]
    rw [if_neg hneg1]

/-! ## Claim theorems -/

/-- Claim C9: resource-name sanitization for environment keys replaces
every `/` and every `-` with `_` (so resource `"app/my-service"` gets
the key base `"app_my_service"`), and sanitization is idempotent:
`sanitize (sanitize x) = sanitize x` for every string `x`. -/
theorem claim_C9_sanitization_idempotent :
    sanitizeResourceName ("app/my-service") = "app_my_service" ∧
    ∀ x : String, sanitizeResourceName (sanitizeResourceName x) = sanitizeResourceName x := by
  constructor
  · rfl
  · intro x
    unfold sanitizeResourceName
    have h1 : '/' ∉ replaceAllChar x.data '/' '_' :=
      replaceAllChar_notMem x.data '/' '_' (by decide)
    have h3 : '-' ∉ replaceAllChar (replaceAllChar x.data '/' '_') '-' '_' :=
      replaceAllChar_notMem (replaceAllChar x.data '/' '_') '-' '_' (by decide)
    have h2 : '/' ∉ replaceAllChar (replaceAllChar x.data '/' '_') '-' '_' := by
      intro hm
      rcases mem_replaceAllChar (replaceAllChar x.data '/' '_') '-' '_' '/' hm with h | h
      · cases h
      · exact h1 h
    show (⟨replaceAllChar (replaceAllChar (replaceAllChar (replaceAllChar x.data '/' '_') '-' '_') '/' '_') '-' '_'⟩ : String) = _
    rw [replaceAllChar_of_notMem _ '/' '_' h2, replaceAllChar_of_notMem _ '-' '_' h3]

/-- Claim C10: `getInstanceName` returns the service name unchanged iff
the name matches the unanchored pattern `.*_[0-9]+` (some underscore is
immediately followed by a digit), otherwise it appends `"_1"`; it is
idempotent. -/
theorem claim_C10_getInstanceName_idempotent :
    ∀ s : String,
      (getInstanceName s = s ↔ ContainsUnderscoreDigit s) ∧
      (ContainsUnderscoreDigit s ∨ getInstanceName s = s ++ "_1") ∧
      getInstanceName (getInstanceName s) = getInstanceName s := by
  intro s
  by_cases h : hasUnderscoreDigit s.data = true
  · have hc : ContainsUnderscoreDigit s := (hasUnderscoreDigit_iff s.data).mp h
    have he : getInstanceName s = s := by
      unfold getInstanceName
      rw [if_pos h]
    exact ⟨⟨fun _ => hc, fun _ => he⟩, Or.inl hc, by rw [he, he]⟩
  · have hnc : ¬ContainsUnderscoreDigit s := fun hcon =>
      h ((hasUnderscoreDigit_iff s.data).mpr hcon)
    have he : getInstanceName s = s ++ "_1" := by
      unfold getInstanceName
      rw [if_neg h]
    have hne : ¬(s ++ "_1" = s) := by
      intro heq
      have hdata := congrArg String.data heq
      rw [String.data_append] at hdata
      have hlen := congrArg List.length hdata
      rw [List.length_append] at hlen
      simp at hlen
    have hud : hasUnderscoreDigit (s ++ "_1").data = true := by
      rw [String.data_append]
      exact hasUnderscoreDigit_append_u1 s.data
    refine ⟨⟨fun hgs => absurd (he ▸ hgs) hne, fun hcon => absurd hcon hnc⟩,
            Or.inr he, ?_⟩
    rw [he]
    unfold getInstanceName
    rw [if_pos hud]

/-- Claim C8: `getExpectPort` extracts the container-side port: an int
is returned as is; a `"host:container"` string yields the numeric value
of the container segment (after the first colon); a plain numeric
string yields that number; any non-int non-string value is an error. -/
theorem claim_C8_getExpectPort :
    (∀ n : Int, getExpectPort (.int n) = .ok n) ∧
    (∀ host container : String, ':' ∉ host.data → container ≠ "" →
      container.data.all Char.isDigit = true →
      getExpectPort (.str (host ++ ":" ++ container)) = .ok ((decimalValue container : Int))) ∧
    (∀ s : String, s ≠ "" → s.data.all Char.isDigit = true →
      getExpectPort (.str s) = .ok ((decimalValue s : Int))) ∧
    (∀ descr : String, ∃ e, getExpectPort (.other descr) = .error e) := by
  refine ⟨fun n => rfl, ?_, ?_, fun descr => ⟨_, rfl⟩⟩
  · intro host container hh hcne hcd
    have hcc : ':' ∉ container.data := by
      intro hm
      have := List.all_eq_true.mp hcd ':' hm
      cases this
    unfold getExpectPort stringsSplitColon
    dsimp only
    have hdata : (host ++ ":" ++ container).data = host.data ++ ':' :: container.data := by
      rw [String.data_append, String.data_append]
      simp
    rw [hdata, splitOnCharAux_append ':' host.data container.data [] hh,
        splitOnCharAux_of_notMem ':' container.data [] hcc]
    simp only [List.reverse_nil, List.nil_append, List.length_cons, List.length_singleton]
    rw [if_pos (by omega)]
    simp only [List.getD_cons_succ, List.getD_cons_zero]
    rw [stringMk_data]
    exact goAtoi_digits container hcne hcd
  · intro s hne hd
    have hsc : ':' ∉ s.data := by
      intro hm
      have := List.all_eq_true.mp hd ':' hm
      cases this
    unfold getExpectPort stringsSplitColon
    dsimp only
    rw [splitOnCharAux_of_notMem ':' s.data [] hsc]
    simp only [List.reverse_nil, List.nil_append, List.length_singleton]
    rw [if_neg (by omega)]
    simp only [List.getD_cons_zero]
    rw [stringMk_data]
    exact goAtoi_digits s hne hd

/-- Witness for C8 at concrete inputs. -/
theorem claim_C8_getExpectPort_witness :
    getExpectPort (.str ("8080:9090")) = .ok (9090) ∧
    getExpectPort (.str ("9200")) = .ok (9200) ∧
    getExpectPort (.int 1234) = .ok 1234 := by
  refine ⟨?_, ?_, claim_C8_getExpectPort.1 1234⟩
  · have h := claim_C8_getExpectPort.2.1 ("8080") ("9090") (by decide) (by decide) (by decide)
    have heq : ("8080" ++ ":" ++ "9090" : String) = "8080:9090" := by decide
    rw [heq] at h
    have hv : ((decimalValue ("9090") : Nat) : Int) = 9090 := by decide
    rw [hv] at h
    exact h
  · have h := claim_C8_getExpectPort.2.2.1 ("9200") (by decide) (by decide)
    have hv : ((decimalValue ("9200") : Nat) : Int) = 9200 := by decide
    rw [hv] at h
    exact h

/-- Claim C2: with a declared definition file and a nil steps list,
`KindSetup` returns success without invoking cluster creation, image
import, or any other external operation (the trace is empty). -/
theorem claim_C2_kindSetup_nil_steps :
    ∀ (cfg : KindConfig) (o : KindOracle),
      cfg.file ≠ "" → cfg.steps = none →
      KindSetup cfg o = (.ok (), []) := by
  intro cfg o hf hs
  unfold KindSetup
  rw [if_neg hf, hs]

/-- Witness for C2 at a concrete configuration. -/
theorem claim_C2_kindSetup_nil_steps_witness :
    KindSetup ⟨"kind.yaml", none, "", []⟩ sampleKindOracle = (.ok (), []) :=
  claim_C2_kindSetup_nil_steps ⟨"kind.yaml", none, "", []⟩ sampleKindOracle
    (by decide) rfl

/-- Claim C3: in the internal health-probe loop, exit code 0 ends the
probe as ready; exit code 126 returns the error
`"/bin/sh command not executable"` on that very attempt, with zero
further retries (the attempt count is the position of the 126, whatever
outcomes follow); any other non-zero exit code causes another exec
attempt. -/
theorem claim_C3_internal_probe_exit_codes :
    ∀ codes rest : List Int,
      (∀ k ∈ codes, k ≠ 0 ∧ k ≠ 126) →
      internalCheckLoop ((codes ++ 0 :: rest).map Except.ok)
        = some (.ok (), codes.length + 1) ∧
      internalCheckLoop ((codes ++ 126 :: rest).map Except.ok)
        = some (.error ("/bin/sh command not executable"), codes.length + 1) ∧
      (∀ (k : Int) (l : List (Except String Int)), k ≠ 0 → k ≠ 126 →
        internalCheckLoop (.ok k :: l)
          = (internalCheckLoop l).map fun p => (p.1, p.2 + 1)) := by
  have hstep : ∀ (k : Int) (l : List (Except String Int)), k ≠ 0 → k ≠ 126 →
      internalCheckLoop (.ok k :: l)
        = (internalCheckLoop l).map fun p => (p.1, p.2 + 1) := by
    intro k l hk0 hk126
    show (if k = 0 then some (Except.ok (), 1)
          else if k = 126 then some (Except.error ("/bin/sh command not executable"), 1)
          else match internalCheckLoop l with
               | none => none
               | some (r, n) => some (r, n + 1)) = _
    rw [if_neg hk0, if_neg hk126]
    cases internalCheckLoop l with
    | none => rfl
    | some p => cases p; rfl
  intro codes
  induction codes with
  | nil =>
    intro rest _
    exact ⟨rfl, rfl, hstep⟩
  | cons c cs ih =>
    intro rest hall
    have hc := hall c (List.mem_cons_self c cs)
    have hcs : ∀ k ∈ cs, k ≠ 0 ∧ k ≠ 126 := fun k hk =>
      hall k (List.mem_cons_of_mem c hk)
    have ihr := ih rest hcs
    refine ⟨?_, ?_, hstep⟩
    · show internalCheckLoop (.ok c :: (cs ++ 0 :: rest).map Except.ok) = _
      rw [hstep c _ hc.1 hc.2, ihr.1]
      simp [Option.map]
    · show internalCheckLoop (.ok c :: (cs ++ 126 :: rest).map Except.ok) = _
      rw [hstep c _ hc.1 hc.2, ihr.2.1]
      simp [Option.map]

/-- Witness for C3: two transient failures (exit 7, exit 1), then 126
aborts at attempt 3 even though a later outcome would have been ready. -/
theorem claim_C3_internal_probe_exit_codes_witness :
    internalCheckLoop (([7, 1] ++ 126 :: [0]).map Except.ok)
      = some (.error ("/bin/sh command not executable"), 3) := by
  have h := (claim_C3_internal_probe_exit_codes [7, 1] [0] (by decide)).2.1
  exact h

/-- Claim C7: a wait condition whose resource selector contains `/` and
whose label selector is non-empty is rejected with the exclusivity
error before any option-building/network call (empty call trace);
a condition with only one of the two selectors is never rejected with
that error. -/
theorem claim_C7_selector_exclusivity :
    ∀ (w : Wait) (o : Except String Unit),
      (w.resource.data.contains '/' = true → w.labelSelector ≠ "" →
        getWaitOptions w o = (.error .exclusivity, [])) ∧
      (¬(w.resource.data.contains '/' = true ∧ w.labelSelector ≠ "") →
        (getWaitOptions w o).1 ≠ .error .exclusivity) := by
  intro w o
  constructor
  · intro hc hl
    unfold getWaitOptions
    rw [if_pos]
    exact Bool.and_eq_true_iff.mpr ⟨hc, decide_eq_true_iff.mpr hl⟩
  · intro hnot
    unfold getWaitOptions
    have hcond : ¬(w.resource.data.contains '/' && decide (w.labelSelector ≠ "")) = true := by
      intro hb
      rcases Bool.and_eq_true_iff.mp hb with ⟨h1, h2⟩
      exact hnot ⟨h1, decide_eq_true_iff.mp h2⟩
    rw [if_neg hcond]
    by_cases hre : w.resource = ""
    · rw [if_pos hre]
      intro hcontra
      cases hcontra
    · rw [if_neg hre]
      cases o with
      | error e =>
        intro hcontra
        cases hcontra
      | ok _ =>
        intro hcontra
        cases hcontra

/-- Witness for C7: the two-selector condition is rejected up front;
the same condition with only a label selector is not rejected by the
exclusivity check. -/
theorem claim_C7_selector_exclusivity_witness :
    getWaitOptions ⟨"deployment/app", "app=demo", "default", "condition=Ready"⟩ (.ok ())
      = (.error .exclusivity, []) ∧
    (getWaitOptions ⟨"pod", "app=demo", "default", "condition=Ready"⟩ (.ok ())).1
      ≠ .error .exclusivity := by
  constructor
  · exact (claim_C7_selector_exclusivity
      ⟨"deployment/app", "app=demo", "default", "condition=Ready"⟩ (.ok ())).1
      (by decide) (by decide)
  · exact (claim_C7_selector_exclusivity
      ⟨"pod", "app=demo", "default", "condition=Ready"⟩ (.ok ())).2
      (by decide)

theorem exposeKindServiceLoop_ok :
    ∀ (results : List ExposeResult) (n m : Nat),
      exposeKindServiceLoop results n = (true, m) → m = n + results.length
  | [], n, m => by
    intro h
    simp only [exposeKindServiceLoop, Prod.mk.injEq] at h
    simp [h.2.symm]
  | r :: rest, n, m => by
    intro h
    simp only [exposeKindServiceLoop] at h
    by_cases hf : exposeFails r = true
    · rw [if_pos hf] at h
      cases h
    · rw [if_neg hf] at h
      have hr : r = .readyOk := by
        cases r <;> first | rfl | (exact absurd rfl hf)
      have hspawn : exposeSpawnCount r = 1 := by rw [hr]; rfl
      have := exposeKindServiceLoop_ok rest (n + exposeSpawnCount r) m h
      rw [hspawn] at this
      simp only [List.length_cons]
      omega

theorem totalFinishedTokens_eq_length (errs : List (Option String)) :
    totalFinishedTokens errs = errs.length := by
  induction errs with
  | nil => rfl
  | cons e rest ih =>
    show (forwardWorkerTokens e).2 + totalFinishedTokens rest = rest.length + 1
    have h2 : (forwardWorkerTokens e).2 = 1 := by cases e <;> rfl
    rw [h2, ih]
    omega

/-- Claim C1: when `exposeKindService` succeeds and binds a (non-nil)
port-forward context, the context's `resourceCount` equals the number
of tunnel workers spawned (one per declared exposure); each spawned
worker produces exactly one completion acknowledgement even when its
`ForwardPorts` errors; and `KindCleanNotify` on that context sends one
stop signal and returns only after receiving exactly `resourceCount`
acknowledgements (and those acknowledgements suffice for it to
return). -/
theorem claim_C1_drain_barrier :
    ∀ (results : List ExposeResult) (ctx : KindPortForwardContext) (spawned : Nat)
      (errs : List (Option String)),
      exposeKindService results = (some ctx, spawned) →
      errs.length = spawned →
      ctx.resourceCount = spawned ∧
      totalFinishedTokens errs = spawned ∧
      kindCleanNotify (some ctx) (totalFinishedTokens errs) = some (1, ctx.resourceCount) ∧
      (∀ fewer : Nat, fewer < ctx.resourceCount → kindCleanNotify (some ctx) fewer = none) := by
  intro results ctx spawned errs hexp herrs
  unfold exposeKindService at hexp
  cases hloop : exposeKindServiceLoop results 0 with
  | mk ok w =>
    rw [hloop] at hexp
    cases ok with
    | false =>
      simp at hexp
    | true =>
      simp only [if_true, Prod.mk.injEq, Option.some.injEq] at hexp
      have hw : w = results.length := by
        have := exposeKindServiceLoop_ok results 0 w hloop
        omega
      have hctx : ctx = ⟨results.length⟩ := hexp.1.symm
      have hspawned : spawned = results.length := by rw [← hexp.2, hw]
      have hcount : ctx.resourceCount = spawned := by rw [hctx, hspawned]
      have htok : totalFinishedTokens errs = spawned := by
        rw [totalFinishedTokens_eq_length, herrs]
      refine ⟨hcount, htok, ?_, ?_⟩
      · show (if ctx.resourceCount ≤ totalFinishedTokens errs then
            some (1, ctx.resourceCount) else none) = some (1, ctx.resourceCount)
        rw [if_pos (by omega)]
      · intro fewer hlt
        show (if ctx.resourceCount ≤ fewer then
            some (1, ctx.resourceCount) else none) = none
        rw [if_neg (by omega)]

/-- Witness for C1: three exposures succeed, three workers are spawned,
one of them later errors; teardown still receives exactly three
acknowledgements (and would block on fewer). -/
theorem claim_C1_drain_barrier_witness :
    totalFinishedTokens [none, some ("tunnel closed"), none] = 3 ∧
    kindCleanNotify (some ⟨3⟩) (totalFinishedTokens [none, some ("tunnel closed"), none])
      = some (1, 3) ∧
    kindCleanNotify (some ⟨3⟩) 2 = none := by
  have h := claim_C1_drain_barrier [.readyOk, .readyOk, .readyOk] ⟨3⟩ 3
    [none, some ("tunnel closed"), none] (by decide) (by decide)
  exact ⟨h.2.1, h.2.2.1, h.2.2.2 2 (by decide)⟩

theorem externalDialLoop_sleeps :
    ∀ (fuel : Nat) (dial : Nat → Bool) (i n : Nat) (sleeps : List Nat),
      externalDialLoop dial fuel i = some (n, sleeps) →
      1 ≤ n ∧ sleeps = List.replicate (n - 1) 2 := by
  intro fuel
  induction fuel with
  | zero =>
    intro dial i n sleeps h
    cases h
  | succ f ih =>
    intro dial i n sleeps h
    unfold externalDialLoop at h
    by_cases hd : dial i = true
    · rw [if_pos hd] at h
      cases h
      exact ⟨by omega, rfl⟩
    · rw [if_neg hd] at h
      cases hrec : externalDialLoop dial f (i + 1) with
      | none =>
        rw [hrec] at h
        cases h
      | some p =>
        rw [hrec] at h
        cases p with
        | mk n2 sleeps2 =>
          simp only [Option.some.injEq, Prod.mk.injEq] at h
          have hih := ih dial (i + 1) n2 sleeps2 hrec
          have hn : n = n2 + 1 := h.1.symm
          have hs : sleeps = 2 :: sleeps2 := h.2.symm
          refine ⟨by omega, ?_⟩
          rw [hs, hih.2, hn]
          have hrepl : n2 + 1 - 1 = (n2 - 1) + 1 := by omega
          have hone : 1 ≤ n2 := hih.1
          have hsub : (n2 - 1) + 1 = n2 := by omega
          rw [hrepl, List.replicate_succ]

theorem succeedsAtDial_run :
    ∀ (k i : Nat),
      externalDialLoop (succeedsAtDial (i + k)) (k + 1) i
        = some (k + 1, List.replicate k 2) := by
  intro k
  induction k with
  | zero =>
    intro i
    unfold externalDialLoop succeedsAtDial
    rw [if_pos (by simp)]
    rfl
  | succ k2 ih =>
    intro i
    show externalDialLoop (succeedsAtDial (i + (k2 + 1))) (k2 + 1 + 1) i = _
    unfold externalDialLoop
    rw [if_neg (by simp [succeedsAtDial])]
    have harg : i + (k2 + 1) = (i + 1) + k2 := by omega
    rw [harg, ih (i + 1)]
    rw [List.replicate_succ]

/-- Claim C5: the external readiness gate sleeps a fixed 2 seconds
between failed attempts and has no attempt cap (a success after any
number `k` of failures is still reached, after exactly `k` sleeps of 2
seconds); the probe itself never gives up while the dial keeps failing;
its only bound is the overall setup timeout, on whose expiry the
(spec-modelled) orchestrator cancels the whole operation, so the setup
run still terminates when the dial never succeeds. -/
theorem claim_C5_external_gate :
    (∀ (dial : Nat → Bool) (fuel i n : Nat) (sleeps : List Nat),
      externalDialLoop dial fuel i = some (n, sleeps) →
      1 ≤ n ∧ sleeps = List.replicate (n - 1) 2) ∧
    (∀ k : Nat, externalDialLoop (succeedsAtDial k) (k + 1) 0
      = some (k + 1, List.replicate k 2)) ∧
    (∀ fuel i : Nat, externalDialLoop alwaysFailingDial fuel i = none) ∧
    (∀ fuel : Nat, orchestratorRunSetup fuel alwaysFailingDial
      = .error ("setup cancelled: overall timeout elapsed")) := by
  have hfail : ∀ fuel i : Nat, externalDialLoop alwaysFailingDial fuel i = none := by
    intro fuel
    induction fuel with
    | zero => intro i; rfl
    | succ f ih =>
      intro i
      unfold externalDialLoop
      rw [if_neg (by simp [alwaysFailingDial])]
      rw [ih (i + 1)]
  refine ⟨fun dial fuel i n sleeps h => externalDialLoop_sleeps fuel dial i n sleeps h,
          ?_, hfail, ?_⟩
  · intro k
    have := succeedsAtDial_run k 0
    rw [Nat.zero_add] at this
    exact this
  · intro fuel
    unfold orchestratorRunSetup
    rw [hfail fuel 0]

/-- Witness for C5: two failed dials then a success yield three attempts
with two 2-second sleeps; with a never-succeeding dial the probe loop is
still running at any fuel, and the orchestrator cancellation ends the
run at the timeout. -/
theorem claim_C5_external_gate_witness :
    (1 ≤ 3 ∧ [2, 2] = List.replicate (3 - 1) 2) ∧
    externalDialLoop (succeedsAtDial 2) 3 0 = some (3, List.replicate 2 2) ∧
    externalDialLoop alwaysFailingDial 5 0 = none ∧
    orchestratorRunSetup 4 alwaysFailingDial
      = .error ("setup cancelled: overall timeout elapsed") := by
  refine ⟨claim_C5_external_gate.1 (succeedsAtDial 2) 3 0 3 [2, 2] (by decide),
          claim_C5_external_gate.2.1 2,
          claim_C5_external_gate.2.2.1 5 0,
          claim_C5_external_gate.2.2.2 4⟩

/-- Counterexample to claim C4: the declared pair (service `"es"`,
expected container port 9200) has no matching entry in the live
container's port table (which only exposes 8080), yet the per-pair
processing returns success with no error and no env export — setup does
not abort, contrary to the claim. -/
theorem claim_C4_counterexample :
    composeProcessPortPair ("es") sampleInspect [⟨8080, 32000⟩] 9200
      ⟨alwaysFailingDial, 0, []⟩ = some (.ok []) := by
  rfl

theorem mappedPortSearch_absent :
    ∀ (ports : List (NatPort × List PortBinding)) (port : NatPort),
      (∀ entry ∈ ports, entry.1.portNum ≠ port.portNum) →
      mappedPortSearch ports port = .error ("port not found")
  | [], port, _ => rfl
  | (k, p) :: rest, port, h => by
    have hk : k.portNum ≠ port.portNum := h (k, p) (List.mem_cons_self _ _)
    simp only [mappedPortSearch]
    rw [if_pos hk]
    exact mappedPortSearch_absent rest port fun e he => h e (List.mem_cons_of_mem _ he)

/-- Claim C4 (amended): a declared (service, expected container port)
pair with no matching entry in the live container's port table is
silently skipped — the inner loop body never runs for it, no error is
produced, no check runs and nothing is exported, and setup continues;
`MappedPort` itself does return a `"port not found"` error for an
absent port on a non-host-network container, but it is only called for
matched pairs and even then its error is discarded after logging. -/
theorem claim_C4_unmatched_port_skipped :
    (∀ (service : String) (inspect : ContainerInspect)
       (containerPorts : List ContainerPort) (expectPort : Int) (checks : PairChecks),
      findMatchingContainerPort containerPorts expectPort = none →
      composeProcessPortPair service inspect containerPorts expectPort checks
        = some (.ok [])) ∧
    (∀ (containerPorts : List ContainerPort) (expectPort : Int),
      (∀ cp ∈ containerPorts, (cp.privatePort : Int) ≠ expectPort) →
      findMatchingContainerPort containerPorts expectPort = none) ∧
    (∀ (inspect : ContainerInspect) (port : NatPort),
      inspect.networkMode ≠ "host" →
      (∀ entry ∈ inspect.ports, entry.1.portNum ≠ port.portNum) →
      MappedPort inspect port = .error ("port not found")) := by
  refine ⟨?_, ?_, ?_⟩
  · intro service inspect containerPorts expectPort checks h
    unfold composeProcessPortPair
    rw [h]
  · intro containerPorts expectPort h
    unfold findMatchingContainerPort
    rw [List.find?_eq_none]
    intro cp hcp
    simp [h cp hcp]
  · intro inspect port hmode habs
    unfold MappedPort
    rw [if_neg hmode, mappedPortSearch_absent inspect.ports port habs]

/-- Witness for C4 (amended) at concrete inputs. -/
theorem claim_C4_unmatched_port_skipped_witness :
    composeProcessPortPair ("oap") sampleInspect [⟨9090, 31000⟩] 12800
      ⟨alwaysFailingDial, 0, []⟩ = some (.ok []) ∧
    findMatchingContainerPort [⟨9090, 31000⟩] 12800 = none ∧
    MappedPort sampleInspect ⟨"12800", "tcp"⟩ = .error ("port not found") := by
  refine ⟨claim_C4_unmatched_port_skipped.1 ("oap") sampleInspect [⟨9090, 31000⟩]
      12800 ⟨alwaysFailingDial, 0, []⟩ (by decide),
    claim_C4_unmatched_port_skipped.2.1 [⟨9090, 31000⟩] 12800 (by decide),
    claim_C4_unmatched_port_skipped.2.2 sampleInspect ⟨"12800", "tcp"⟩
      (by decide) (by decide)⟩

/-- Counterexample to claim C6: with a failing network-list call (and no
inspectable empty-name network), `ComposeSetup` does not return that
error and does not abort — it reaches `compose up` and continues with
an empty gateway IP. -/
theorem claim_C6_counterexample :
    composeSetupThroughUp ("docker-compose.yml") failingDockerOracle (.ok ()) (.ok ())
      = (.ok "", true) := by
  rfl

theorem getDefaultNetwork_list_error (o : DockerOracle) (e : String)
    (h : o.networkList = .error e) : getDefaultNetwork o = .error e := by
  unfold getDefaultNetwork
  rw [h]

theorem defaultNetworkNameOrEmpty_of_error (o : DockerOracle) (e : String)
    (h : getDefaultNetwork o = .error e) : defaultNetworkNameOrEmpty o = "" := by
  unfold defaultNetworkNameOrEmpty
  rw [h]

/-- Claim C6 (amended): `getDefaultNetwork` and `getGatewayIP` do return
errors for failed listing, failed fallback creation, and a missing
non-empty gateway — but `ComposeSetup` never checks those errors: it
overwrites them and proceeds to start the stack with the zero-value
gateway IP `""` (and `getGatewayIP` itself drops `getDefaultNetwork`'s
error, inspecting the empty network name instead). -/
theorem claim_C6_network_errors_returned_but_dropped :
    (∀ (o : DockerOracle) (e : String), o.networkList = .error e →
      getDefaultNetwork o = .error e) ∧
    (∀ (o : DockerOracle) (e : String) (nets : List NetworkResource),
      o.networkList = .ok nets →
      nets.any (fun n => n.name = "bridge") = false →
      nets.any (fun n => n.name = reaperDefaultNetwork) = false →
      o.networkCreate = .error e →
      getDefaultNetwork o = .error e) ∧
    (∀ (o : DockerOracle) (nw : NetworkResource),
      o.networkInspect (defaultNetworkNameOrEmpty o) = .ok nw →
      (∀ g ∈ nw.ipamGateways, g = "") →
      getGatewayIP o = .error ("Failed to get gateway IP from network settings")) ∧
    (∀ (o : DockerOracle) (file e e2 : String),
      file ≠ "" →
      o.networkList = .error e →
      o.networkInspect "" = .error e2 →
      composeSetupThroughUp file o (.ok ()) (.ok ()) = (.ok "", true)) := by
  refine ⟨getDefaultNetwork_list_error, ?_, ?_, ?_⟩
  · intro o e nets hl hb hr hc
    unfold getDefaultNetwork
    rw [hl]
    simp only [hb, hr, Bool.false_eq_true, if_false, Bool.not_false, if_true, hc]
  · intro o nw hi hg
    have hfind : (nw.ipamGateways.find? fun g => g ≠ "") = none := by
      rw [List.find?_eq_none]
      intro g hgm
      simp [hg g hgm]
    unfold getGatewayIP
    dsimp only
    rw [hi]
    dsimp only
    rw [hfind]
    simp
  · intro o file e e2 hf hl hi
    have hname : defaultNetworkNameOrEmpty o = "" :=
      defaultNetworkNameOrEmpty_of_error o e (getDefaultNetwork_list_error o e hl)
    have hgw : getGatewayIP o = .error e2 := by
      unfold getGatewayIP
      rw [hname]
      dsimp only
      rw [hi]
    unfold composeSetupThroughUp
    rw [if_neg hf]
    simp [hgw]

/-- Witness for C6 (amended): each error path evaluated concretely, and
the dropped-error continuation on the failing oracle. -/
theorem claim_C6_network_errors_returned_but_dropped_witness :
    getDefaultNetwork failingDockerOracle = .error ("network list failed") ∧
    getDefaultNetwork createFailOracle = .error ("create failed") ∧
    getGatewayIP sampleNoGatewayOracle
      = .error ("Failed to get gateway IP from network settings") ∧
    composeSetupThroughUp ("compose.yml") failingDockerOracle (.ok ()) (.ok ())
      = (.ok "", true) := by
  refine ⟨claim_C6_network_errors_returned_but_dropped.1 failingDockerOracle
      ("network list failed") rfl,
    claim_C6_network_errors_returned_but_dropped.2.1 createFailOracle
      ("create failed") [⟨"mynet", ["172.18.0.1"]⟩] rfl (by decide) (by decide) rfl,
    claim_C6_network_errors_returned_but_dropped.2.2.1 sampleNoGatewayOracle
      ⟨"bridge", ["", ""]⟩ rfl (by decide),
    claim_C6_network_errors_returned_but_dropped.2.2.2 failingDockerOracle
      ("compose.yml") ("network list failed") ("no such network")
      (by decide) rfl rfl⟩

/-- Witness for C9 at the spec's concrete resource name. -/
theorem claim_C9_sanitization_idempotent_witness :
    sanitizeResourceName (sanitizeResourceName ("app/my-service"))
      = sanitizeResourceName ("app/my-service") :=
  claim_C9_sanitization_idempotent.2 ("app/my-service")

/-- Witness for C10 at concrete service names (one without a match, one
already carrying an `_1` instance suffix). -/
theorem claim_C10_getInstanceName_idempotent_witness :
    getInstanceName (getInstanceName ("web")) = getInstanceName ("web") ∧
    getInstanceName (getInstanceName ("web_1")) = getInstanceName ("web_1") :=
  ⟨(claim_C10_getInstanceName_idempotent ("web")).2.2,
   (claim_C10_getInstanceName_idempotent ("web_1")).2.2⟩
